import Mathlib

/-!
Shallow embedding of the IndexedDB caching core of the web3-indexeddb-demo
repository: the generic store (src/web-app/src/lib/indexeddb/database.ts)
modelled as keyed record lists, and the domain cache manager
(src/web-app/src/lib/indexeddb/manager.ts) as pure state-passing functions.
Timestamps are Date.now() milliseconds, modelled as Nat; each manager method
that reads the clock takes the current time as an explicit parameter.
-/

namespace Web3DB

/-- Cache entry type tag, the union type of CacheEntry.type in config.ts. -/
inductive CacheType where
  | profile
  | post
  | posts_list
  | user_posts
  deriving DecidableEq, Repr

/-- Theme union type of UserPreferences.theme in config.ts. -/
inductive Theme where
  | light
  | dark
  | system
  deriving DecidableEq, Repr

/-- ProfileData record from config.ts. The `exists` field of the source is
named `existsFlag` because `exists` clashes with Lean tactic syntax. -/
structure ProfileData where
  address : String
  username : String
  bio : String
  createdAt : Nat
  existsFlag : Bool
  lastUpdated : Nat
  deriving DecidableEq, Repr

/-- PostData record from config.ts; authorProfile is an optional embedded
snapshot. -/
structure PostData where
  id : Nat
  author : String
  title : String
  content : String
  createdAt : Nat
  existsFlag : Bool
  authorProfile : Option ProfileData
  lastUpdated : Nat
  deriving DecidableEq, Repr

/-- UserPreferences record from config.ts. The open-ended
customSettings object is modelled as an association list of strings. -/
structure UserPreferences where
  address : String
  theme : Theme
  notifications : Bool
  autoRefresh : Bool
  cacheTimeout : Nat
  displayName : Option String
  customSettings : List (String × String)
  deriving DecidableEq, Repr

/-- CacheEntry record from config.ts; the opaque data payload is a type
parameter. -/
structure CacheEntry (α : Type) where
  key : String
  data : α
  type : CacheType
  createdAt : Nat
  expiresAt : Nat
  deriving DecidableEq, Repr

/-- The four collections of WEB3_DB_CONFIG, each a keyed record list. -/
structure DBState (α : Type) where
  profiles : List ProfileData
  posts : List PostData
  userPreferences : List UserPreferences
  cache : List (CacheEntry α)
  deriving DecidableEq, Repr

/-- Insert-or-replace by primary key: IDBObjectStore.put, database.ts line
108. Any record with the same key is removed and the new record stored. -/
def putRecord {β : Type} (key : β → String) (r : β) (l : List β) : List β :=
  l.filter (fun x => key x != key r) ++ [r]

/-- Lookup by primary key: IDBObjectStore.get, database.ts line 124.
Returns the stored record or the not-found sentinel (none). -/
def getRecord {β : Type} (key : β → String) (k : String) (l : List β) : Option β :=
  l.find? (fun x => key x == k)

/-- Remove by primary key: IDBObjectStore.delete, database.ts line 156;
a no-op when the key is absent. -/
def deleteRecord {β : Type} (key : β → String) (k : String) (l : List β) : List β :=
  l.filter (fun x => key x != k)

/-- The CacheEntry record built by Web3DBManager.setCacheEntry
(manager.ts lines 192-198): createdAt = Date.now(),
expiresAt = Date.now() + ttlMinutes * 60 * 1000, with the current
Date.now() value passed in as `now`. -/
def mkCacheEntry {α : Type} (now : Nat) (key : String) (data : α)
    (ty : CacheType) (ttlMinutes : Nat) : CacheEntry α :=
  { key := key, data := data, type := ty, createdAt := now,
    expiresAt := now + ttlMinutes * 60 * 1000 }

/-- Web3DBManager.setCacheEntry (manager.ts lines 186-201): builds the
entry and puts it into the cache collection. -/
def setCacheEntry {α : Type} (now : Nat) (key : String) (data : α)
    (ty : CacheType) (ttlMinutes : Nat) (s : DBState α) : DBState α :=
  { s with cache := putRecord CacheEntry.key (mkCacheEntry now key data ty ttlMinutes) s.cache }

/-- Web3DBManager.getCacheEntry (manager.ts lines 206-218): reads the
entry; absent gives the not-found sentinel; if Date.now() > expiresAt
(strict) the entry is deleted and the sentinel returned; otherwise the
stored data is returned and the state is untouched. -/
def getCacheEntry {α : Type} (now : Nat) (key : String) (s : DBState α) :
    Option α × DBState α :=
  match getRecord CacheEntry.key key s.cache with
  | none => (none, s)
  | some entry =>
    if entry.expiresAt < now then
      (none, { s with cache := deleteRecord CacheEntry.key key s.cache })
    else
      (some entry.data, s)

/-- Web3DBManager.isDataFresh (manager.ts lines 248-254): true iff an
entry is stored and Date.now() - entry.createdAt < maxAgeMinutes * 60 * 1000.
The subtraction is JavaScript number arithmetic, modelled in Int. -/
def isDataFresh {α : Type} (now : Nat) (key : String) (maxAgeMinutes : Nat)
    (s : DBState α) : Bool :=
  match getRecord CacheEntry.key key s.cache with
  | none => false
  | some entry =>
    decide ((now : Int) - (entry.createdAt : Int) < (maxAgeMinutes : Int) * 60 * 1000)

/-- Web3DBManager.getAllCachedPosts (manager.ts lines 126-129): read all
posts, then sort by createdAt newest first. The JavaScript
posts.sort with comparator b.createdAt - a.createdAt is modelled by a
stable merge sort whose boolean order keeps a before b exactly when the
comparator is non-positive, i.e. when b.createdAt is at most a.createdAt. -/
def getAllCachedPosts {α : Type} (s : DBState α) : List PostData :=
  s.posts.mergeSort (fun a b => Nat.ble b.createdAt a.createdAt)

/-- Web3DBManager.saveUserPreferences (manager.ts lines 144-147): puts
the full record into the userPreferences collection, keyed by address. -/
def saveUserPreferences {α : Type} (p : UserPreferences) (s : DBState α) : DBState α :=
  { s with userPreferences := putRecord UserPreferences.address p s.userPreferences }

/-- Web3DBManager.getUserPreferences (manager.ts lines 152-154):
pass-through read. -/
def getUserPreferences {α : Type} (address : String) (s : DBState α) :
    Option UserPreferences :=
  getRecord UserPreferences.address address s.userPreferences

/-- Web3DBManager.getUserPreferencesWithDefaults (manager.ts lines
159-179): the stored record if present (a record object is always truthy);
otherwise a default record is built, saved, and returned. -/
def getUserPreferencesWithDefaults {α : Type} (address : String) (s : DBState α) :
    UserPreferences × DBState α :=
  match getUserPreferences address s with
  | some preferences => (preferences, s)
  | none =>
    let defaults : UserPreferences :=
      { address := address, theme := Theme.system, notifications := true,
        autoRefresh := true, cacheTimeout := 15, displayName := none,
        customSettings := [] }
    (defaults, saveUserPreferences defaults s)

/-- Web3DBManager.clearAllCache (manager.ts lines 259-266): clears the
profiles, posts and cache collections; userPreferences is not touched. -/
def clearAllCache {α : Type} (s : DBState α) : DBState α :=
  { s with profiles := [], posts := [], cache := [] }

/-- The record-count result of Web3DBManager.getStats. -/
structure Stats where
  profiles : Nat
  posts : Nat
  cacheEntries : Nat
  userPreferences : Nat
  deriving DecidableEq, Repr

/-- Web3DBManager.getStats (manager.ts lines 271-290): getAll on each of
the four collections and report the lengths. -/
def getStats {α : Type} (s : DBState α) : Stats :=
  { profiles := s.profiles.length, posts := s.posts.length,
    cacheEntries := s.cache.length, userPreferences := s.userPreferences.length }

/-- Failure oracle for the fallible store operations used by the cleanup
sweep: whether getAll on the cache collection rejects, and which delete
calls reject (database.ts raises on request.onerror). -/
structure DBOracle where
  getAllCacheFails : Bool
  deleteFails : String → Bool

/-- The expired keys computed by Web3DBManager.cleanupExpiredCache
(manager.ts lines 225-229): entries with now > expiresAt, strict. -/
def expiredKeys {α : Type} (now : Nat) (cache : List (CacheEntry α)) : List String :=
  (cache.filter (fun entry => Nat.blt entry.expiresAt now)).map CacheEntry.key

/-- The delete loop of cleanupExpiredCache (manager.ts lines 231-233)
together with the enclosing catch: deletes each key in order; a rejected
delete aborts the loop (the raised error is caught by the surrounding
try/catch) but deletions already performed persist. -/
def deleteExpiredLoop {α : Type} (o : DBOracle) (keys : List String)
    (s : DBState α) : DBState α :=
  match keys with
  | [] => s
  | k :: rest =>
    if o.deleteFails k then s
    else deleteExpiredLoop o rest { s with cache := deleteRecord CacheEntry.key k s.cache }

/-- Web3DBManager.cleanupExpiredCache (manager.ts lines 223-241): the
whole body is wrapped in try/catch, so a rejected getAll leaves the state
unchanged and a rejected delete stops the sweep early; no error escapes. -/
def cleanupExpiredCache {α : Type} (o : DBOracle) (now : Nat) (s : DBState α) : DBState α :=
  if o.getAllCacheFails then s
  else deleteExpiredLoop o (expiredKeys now s.cache) s

/-- Web3DBManager.initialize (manager.ts lines 47-61): initializes the
underlying store (dbInit is the outcome of IndexedDBManager.initialize);
a store failure propagates, then the cleanup sweep runs and its failures
are swallowed inside cleanupExpiredCache. -/
def initializeManager {α : Type} (o : DBOracle) (now : Nat)
    (dbInit : Except String Unit) (s : DBState α) : Except String (DBState α) :=
  match dbInit with
  | Except.error e => Except.error e
  | Except.ok _ => Except.ok (cleanupExpiredCache o now s)

/-- Rewrite every cache entry's expiresAt field through f, leaving all
other fields alone; used to state that a computation ignores expiresAt. -/
def mapExpiresAt {α : Type} (f : Nat → Nat) (s : DBState α) : DBState α :=
  { s with cache := s.cache.map (fun e => { e with expiresAt := f e.expiresAt }) }

/-- An empty database state. -/
def emptyDB (α : Type) : DBState α :=
  { profiles := [], posts := [], userPreferences := [], cache := [] }

/-- A one-entry cache state used as a concrete instance: key "a", data 3,
created at 0, expiring at 10. -/
def oneEntryDB : DBState Nat :=
  { profiles := [], posts := [], userPreferences := [],
    cache := [{ key := "a", data := 3, type := CacheType.profile,
                createdAt := 0, expiresAt := 10 }] }

/-- A state holding a single already-expired cache entry under key
"stale" (created at 0, expired at 10). -/
def staleEntryDB : DBState Nat :=
  { profiles := [], posts := [], userPreferences := [],
    cache := [{ key := "stale", data := 7, type := CacheType.posts_list,
                createdAt := 0, expiresAt := 10 }] }

/- Helper lemmas about the keyed-list store primitives. -/

theorem getRecord_putRecord_self {β : Type} (key : β → String) (r : β) (l : List β) :
    getRecord key (key r) (putRecord key r l) = some r := by
  unfold getRecord putRecord
  induction l with
  | nil => simp
  | cons x xs ih =>
    by_cases hx : key x = key r
    · simp [hx, ih]
    · have hbne : (key x != key r) = true := by simpa using hx
      have hbeq : (key x == key r) = false := by simpa using hx
      simp [List.filter_cons, hbne, hbeq, ih]

theorem getRecord_setCacheEntry {α : Type} (now : Nat) (key : String) (d : α)
    (ty : CacheType) (ttl : Nat) (s : DBState α) :
    getRecord CacheEntry.key key (setCacheEntry now key d ty ttl s).cache =
      some (mkCacheEntry now key d ty ttl) :=
  getRecord_putRecord_self CacheEntry.key (mkCacheEntry now key d ty ttl) s.cache

theorem getRecord_mapExpiresAt {α : Type} (f : Nat → Nat) (k : String)
    (l : List (CacheEntry α)) :
    getRecord CacheEntry.key k (l.map (fun e => { e with expiresAt := f e.expiresAt })) =
      (getRecord CacheEntry.key k l).map (fun e => { e with expiresAt := f e.expiresAt }) := by
  unfold getRecord
  induction l with
  | nil => simp
  | cons x xs ih =>
    by_cases hx : x.key = k
    · simp [List.find?_cons, hx]
    · have hbeq : (x.key == k) = false := by simpa using hx
      simp [List.find?_cons, hbeq, ih]

/-- C1 counterexample: the claim says setCacheEntry with ttlMinutes 0
followed immediately by getCacheEntry returns the not-found sentinel, but
when the read happens at the same millisecond as the write (both clocks
read 0) the strict expiry check now > expiresAt does not fire and the
stored data 37 is returned, not the sentinel. -/
theorem getCacheEntry_zero_ttl_same_instant_returns_data :
    (getCacheEntry 0 "k" (setCacheEntry 0 "k" (37 : Nat) CacheType.profile 0 (emptyDB Nat))).fst
      = some 37
    ∧ (getCacheEntry 0 "k" (setCacheEntry 0 "k" (37 : Nat) CacheType.profile 0 (emptyDB Nat))).fst
      ≠ none := by
  constructor
  · rfl
  · intro h
    exact Option.noConfusion h

/-- C1 amended: after setCacheEntry with ttlMinutes 0 at time t,
getCacheEntry at any strictly later time returns the not-found sentinel;
only a read at exactly the write millisecond still sees the data, because
the expiry check is strict. -/
theorem getCacheEntry_zero_ttl_expired_at_any_later_time {α : Type}
    (s : DBState α) (t tr : Nat) (key : String) (d : α) (ty : CacheType)
    (h : t < tr) :
    (getCacheEntry tr key (setCacheEntry t key d ty 0 s)).fst = none := by
  unfold getCacheEntry
  rw [getRecord_setCacheEntry]
  simp only [mkCacheEntry]
  simp [h]

/-- C1 amended-claim witness at a concrete input: write at time 0 with
ttl 0, read at time 1, the entry is gone. -/
theorem getCacheEntry_zero_ttl_expired_witness :
    (getCacheEntry 1 "k" (setCacheEntry 0 "k" (5 : Nat) CacheType.post 0 (emptyDB Nat))).fst
      = none :=
  getCacheEntry_zero_ttl_expired_at_any_later_time (emptyDB Nat) 0 1 "k" 5 CacheType.post
    (by decide)

/-- C2 counterexample: the entry built by setCacheEntry at time 5 with
ttlMinutes 0 has expiresAt = createdAt = 5, refuting the claimed strict
inequality expiresAt > createdAt for every accepted ttlMinutes. -/
theorem mkCacheEntry_zero_ttl_not_strict :
    ¬ ((mkCacheEntry 5 "k" (0 : Nat) CacheType.profile 0).createdAt
        < (mkCacheEntry 5 "k" (0 : Nat) CacheType.profile 0).expiresAt) := by
  decide

/-- C2 amended: the record stored by setCacheEntry is exactly
mkCacheEntry now key data ty ttl, and it satisfies
expiresAt ≥ createdAt always, strictly whenever ttlMinutes > 0 (at
ttlMinutes = 0 the two timestamps coincide). -/
theorem setCacheEntry_expiresAt_ge_createdAt {α : Type} (now : Nat)
    (key : String) (d : α) (ty : CacheType) (ttl : Nat) (s : DBState α) :
    getRecord CacheEntry.key key (setCacheEntry now key d ty ttl s).cache
      = some (mkCacheEntry now key d ty ttl)
    ∧ (mkCacheEntry now key d ty ttl).createdAt ≤ (mkCacheEntry now key d ty ttl).expiresAt
    ∧ (0 < ttl →
        (mkCacheEntry now key d ty ttl).createdAt < (mkCacheEntry now key d ty ttl).expiresAt) := by
  refine ⟨getRecord_setCacheEntry now key d ty ttl s, ?_, ?_⟩
  · simp [mkCacheEntry]
  · intro h
    simp only [mkCacheEntry]
    omega

/-- C2 amended-claim witness: at time 5 with ttl 3 the stored entry has
createdAt 5 strictly below expiresAt 180005. -/
theorem setCacheEntry_expiresAt_ge_createdAt_witness :
    (mkCacheEntry 5 "k" (0 : Nat) CacheType.profile 3).createdAt
      < (mkCacheEntry 5 "k" (0 : Nat) CacheType.profile 3).expiresAt :=
  (setCacheEntry_expiresAt_ge_createdAt 5 "k" (0 : Nat) CacheType.profile 3
    (emptyDB Nat)).2.2 (by decide)

/-- C3: for every strictly positive ttl, setCacheEntry followed
immediately (same Date.now reading) by getCacheEntry returns exactly the
stored data. -/
theorem setCacheEntry_then_getCacheEntry_returns_data {α : Type}
    (s : DBState α) (t : Nat) (key : String) (d : α) (ty : CacheType)
    (ttl : Nat) (h : 0 < ttl) :
    (getCacheEntry t key (setCacheEntry t key d ty ttl s)).fst = some d := by
  unfold getCacheEntry
  rw [getRecord_setCacheEntry]
  simp only [mkCacheEntry]
  have : ¬ (t + ttl * 60 * 1000 < t) := by omega
  simp [this]

/-- C3 witness: store 42 under key "p" at time 100 with ttl 15 and read
it back at time 100. -/
theorem setCacheEntry_then_getCacheEntry_returns_data_witness :
    (getCacheEntry 100 "p" (setCacheEntry 100 "p" (42 : Nat) CacheType.posts_list 15
      (emptyDB Nat))).fst = some 42 :=
  setCacheEntry_then_getCacheEntry_returns_data (emptyDB Nat) 100 "p" 42
    CacheType.posts_list 15 (by decide)

/-- C4: when the stored entry for a key is strictly past its expiresAt at
read time, getCacheEntry deletes it from the cache collection and returns
the not-found sentinel; otherwise it returns the entry data and leaves
the state untouched. -/
theorem getCacheEntry_lazy_expiry {α : Type} (s : DBState α) (now : Nat)
    (key : String) (e : CacheEntry α)
    (h : getRecord CacheEntry.key key s.cache = some e) :
    (e.expiresAt < now →
      getCacheEntry now key s
        = (none, { s with cache := deleteRecord CacheEntry.key key s.cache }))
    ∧ (now ≤ e.expiresAt → getCacheEntry now key s = (some e.data, s)) := by
  unfold getCacheEntry
  rw [h]
  constructor
  · intro hlt
    simp [hlt]
  · intro hle
    have : ¬ (e.expiresAt < now) := by omega
    simp [this]

/-- C4 witness on a concrete one-entry state: reading at time 11 deletes
the entry expiring at 10 and returns the sentinel; reading at time 9
returns the data 3 and leaves the state unchanged. -/
theorem getCacheEntry_lazy_expiry_witness :
    getCacheEntry 11 "a" oneEntryDB
      = (none, { oneEntryDB with cache := deleteRecord CacheEntry.key "a" oneEntryDB.cache })
    ∧ getCacheEntry 9 "a" oneEntryDB = (some 3, oneEntryDB) :=
  ⟨(getCacheEntry_lazy_expiry oneEntryDB 11 "a"
      { key := "a", data := 3, type := CacheType.profile, createdAt := 0, expiresAt := 10 }
      (by decide)).1 (by decide),
   (getCacheEntry_lazy_expiry oneEntryDB 9 "a"
      { key := "a", data := 3, type := CacheType.profile, createdAt := 0, expiresAt := 10 }
      (by decide)).2 (by decide)⟩

/-- C5: isDataFresh is true exactly when an entry is stored and
now - createdAt < maxAgeMinutes * 60000 (JavaScript subtraction, in Int),
and its value never depends on the expiresAt fields of the cache. -/
theorem isDataFresh_spec {α : Type} (s : DBState α) (now : Nat)
    (key : String) (maxAge : Nat) :
    (isDataFresh now key maxAge s = true ↔
      ∃ e, getRecord CacheEntry.key key s.cache = some e
        ∧ (now : Int) - (e.createdAt : Int) < (maxAge : Int) * 60 * 1000)
    ∧ (∀ f : Nat → Nat,
        isDataFresh now key maxAge (mapExpiresAt f s) = isDataFresh now key maxAge s) := by
  constructor
  · unfold isDataFresh
    cases hfind : getRecord CacheEntry.key key s.cache with
    | none => simp [hfind]
    | some e => simp [hfind]
  · intro f
    unfold isDataFresh mapExpiresAt
    rw [getRecord_mapExpiresAt]
    cases hfind : getRecord CacheEntry.key key s.cache with
    | none => simp
    | some e => simp

/-- C6: getAllCachedPosts returns the posts collection ordered by
createdAt non-increasing (newest first), whatever the stored order, and
the result is a permutation of the stored posts. -/
theorem getAllCachedPosts_sorted_desc {α : Type} (s : DBState α) :
    (getAllCachedPosts s).Pairwise (fun a b => b.createdAt ≤ a.createdAt)
    ∧ (getAllCachedPosts s).Perm s.posts := by
  unfold getAllCachedPosts
  constructor
  · have h := List.sorted_mergeSort
      (fun a b c ha hb => by
        have ha2 : Nat.ble b.createdAt a.createdAt = true := ha
        have hb2 : Nat.ble c.createdAt b.createdAt = true := hb
        show Nat.ble c.createdAt a.createdAt = true
        simp only [Nat.ble_eq] at ha2 hb2 ⊢
        omega)
      (fun a b => by
        show (Nat.ble b.createdAt a.createdAt || Nat.ble a.createdAt b.createdAt) = true
        simp only [Bool.or_eq_true, Nat.ble_eq]
        omega)
      s.posts
    exact h.imp (fun hab => Nat.le_of_ble_eq_true hab)
  · exact List.mergeSort_perm s.posts _

/-- C7: saving a full preference record and then asking for preferences
with defaults returns exactly the saved record, defaults untouched, and
does not modify the state further. -/
theorem saveUserPreferences_roundtrip {α : Type} (p : UserPreferences) (s : DBState α) :
    getUserPreferencesWithDefaults p.address (saveUserPreferences p s)
      = (p, saveUserPreferences p s) := by
  unfold getUserPreferencesWithDefaults getUserPreferences
  have h : getRecord UserPreferences.address p.address
      (saveUserPreferences p s).userPreferences = some p :=
    getRecord_putRecord_self UserPreferences.address p s.userPreferences
  rw [h]

/-- C8: clearAllCache empties the profiles, posts and cache collections
and leaves userPreferences untouched, so a following getStats reports
zero for the three cleared collections and the unchanged preference
count. -/
theorem clearAllCache_preserves_preferences {α : Type} (s : DBState α) :
    (clearAllCache s).userPreferences = s.userPreferences
    ∧ getStats (clearAllCache s)
      = { profiles := 0, posts := 0, cacheEntries := 0,
          userPreferences := s.userPreferences.length } :=
  ⟨rfl, rfl⟩

/-- C9: whenever the underlying store initialization succeeds, the
manager initialization succeeds for every failure oracle — any pattern of
getAll or delete rejections inside the cleanup sweep is swallowed by its
try/catch and never reaches the caller. -/
theorem initializeManager_swallows_cleanup_failures {α : Type} (o : DBOracle)
    (now : Nat) (dbInit : Except String Unit) (s : DBState α)
    (h : dbInit = Except.ok ()) :
    initializeManager o now dbInit s = Except.ok (cleanupExpiredCache o now s) := by
  subst h
  rfl

/-- An oracle on which every delete call rejects. -/
def allDeletesFailOracle : DBOracle :=
  { getAllCacheFails := false, deleteFails := fun _ => true }

/-- C9 witness: on a state with an expired entry and an oracle whose
delete calls all reject, initialization still returns success. -/
theorem initializeManager_swallows_cleanup_failures_witness :
    initializeManager allDeletesFailOracle 100 (Except.ok ()) staleEntryDB
      = Except.ok (cleanupExpiredCache allDeletesFailOracle 100 staleEntryDB) :=
  initializeManager_swallows_cleanup_failures allDeletesFailOracle 100
    (Except.ok ()) staleEntryDB rfl

/-- C10: getStats counts the physically stored cache records whatever
their expiry, and on the concrete state with one expired entry it reports
count 1 while getCacheEntry returns the not-found sentinel for that
state's only key. -/
theorem getStats_counts_physical_entries :
    (∀ (α : Type) (s : DBState α), (getStats s).cacheEntries = s.cache.length)
    ∧ (getStats staleEntryDB).cacheEntries = 1
    ∧ (getCacheEntry 11 "stale" staleEntryDB).fst = none := by
  refine ⟨fun α s => rfl, rfl, ?_⟩
  decide

end Web3DB
